import Mathlib

/-!
Verification of the Strava MCP server's core components against its
natural-language specification.

The development shallowly embeds the Python sources:
  - `src/strava/auth/rate_limiter.py` (class RateLimiter)
  - `src/strava/auth/strava_auth.py` (class StravaAuth)
  - `src/strava/cache/lru_cache.py` (class StravaCache)
  - `src/server.py` (pagination parameter construction and the analytics
    functions `_calculate_pace`, `_calculate_effort`, `analyze_training_load`)

Python floats and timestamps are modelled as exact rationals; Python
exceptions are modelled with an explicit error type and `Except`; mutable
object state is threaded explicitly.  The wall clock is passed in as an
explicit `now` parameter wherever the source calls `time.time()` or
`datetime.now().timestamp()`.
-/

/-! ## Python exception kinds relevant to the embedded code -/

/-- Kinds of Python exceptions that the embedded code can raise.
`valueError` is the `ValidationError` of the specification's error
taxonomy (the code raises builtin `ValueError`), `runtimeError` covers the
`RuntimeError` wrappers used for network and provider failures. -/
inductive PyErr where
  | runtimeError
  | valueError
  | keyError
  | typeError
  | zeroDivisionError
deriving DecidableEq, Repr

/-! ## RateLimiter (`src/strava/auth/rate_limiter.py`) -/

/-- State of `class RateLimiter`: two lists of request timestamps and the
two limits fixed in `__init__`. -/
structure RateLimiter where
  requests_15min : List ℚ
  requests_daily : List ℚ
  limit_15min : ℕ
  limit_daily : ℕ
deriving DecidableEq, Repr

/-- Constructor `RateLimiter.__init__`: empty windows, limits 100 and 1000. -/
def RateLimiter.init : RateLimiter :=
  { requests_15min := [], requests_daily := [], limit_15min := 100, limit_daily := 1000 }

/-- Method `RateLimiter.can_make_request`: purge timestamps older than 900 s from
the short window and older than 86400 s from the daily window, then admit
iff both retained counts are strictly below their limits.  Returns the
mutated state together with the boolean result. -/
def RateLimiter.can_make_request (rl : RateLimiter) (now : ℚ) : RateLimiter × Bool :=
  let r15 := rl.requests_15min.filter (fun t => decide (now - t < 900))
  let rd := rl.requests_daily.filter (fun t => decide (now - t < 86400))
  ({ rl with requests_15min := r15, requests_daily := rd },
    decide (r15.length < rl.limit_15min) && decide (rd.length < rl.limit_daily))

/-- Method `RateLimiter.add_request`: append the current timestamp to both
windows. -/
def RateLimiter.add_request (rl : RateLimiter) (now : ℚ) : RateLimiter :=
  { rl with
    requests_15min := rl.requests_15min ++ [now]
    requests_daily := rl.requests_daily ++ [now] }

/-- Register a sequence of requests (repeated `add_request`). -/
def RateLimiter.addMany (rl : RateLimiter) (ts : List ℚ) : RateLimiter :=
  ts.foldl RateLimiter.add_request rl

/-- One externally observable operation on the rate limiter. -/
inductive RLOp where
  | check (now : ℚ)
  | add (now : ℚ)
deriving DecidableEq, Repr

/-- Effect of one operation on the rate-limiter state (`can_make_request`
is called for its purge side effect, the boolean is discarded). -/
def RateLimiter.step (rl : RateLimiter) : RLOp → RateLimiter
  | .check now => (rl.can_make_request now).1
  | .add now => rl.add_request now

/-- Run a sequence of operations from a given state. -/
def RateLimiter.run (rl : RateLimiter) (ops : List RLOp) : RateLimiter :=
  ops.foldl RateLimiter.step rl

/-! ## StravaCache (`src/strava/cache/lru_cache.py`) -/

/-- One stored cache entry: `{"value": value, "timestamp": time.time()}`. -/
structure CacheItem (V : Type) where
  value : V
  timestamp : ℚ
deriving DecidableEq, Repr

/-- State of `class StravaCache`: the TTL and the backing dict, modelled
as a partial map from keys to entries. -/
structure StravaCache (V : Type) where
  ttl : ℚ
  cacheMap : String → Option (CacheItem V)

/-- Method `StravaCache.get`: a hit while `now - stored_at < ttl` returns the
value and leaves the dict unchanged; an expired entry is deleted
(`del self._cache[key]`) and the lookup misses; an unknown key misses. -/
def StravaCache.get {V : Type} (c : StravaCache V) (key : String) (now : ℚ) :
    StravaCache V × Option V :=
  match c.cacheMap key with
  | some item =>
      if now - item.timestamp < c.ttl then (c, some item.value)
      else ({ c with cacheMap := fun k => if k = key then none else c.cacheMap k }, none)
  | none => (c, none)

/-- Method `StravaCache.set`: store the value with the current timestamp,
overwriting any previous entry for the key. -/
def StravaCache.set {V : Type} (c : StravaCache V) (key : String) (value : V) (now : ℚ) :
    StravaCache V :=
  { c with cacheMap := fun k => if k = key then some ⟨value, now⟩ else c.cacheMap k }

/-! ## Pagination parameters (`get_recent_activities_with_pagination`) -/

/-- Python truthiness of an optional integer argument (`if before:`):
`None` and `0` are falsy. -/
def intTruthy : Option ℤ → Bool
  | none => false
  | some n => n != 0

/-- Outbound query parameters built by
`get_recent_activities_with_pagination`:
`params = {"page": page, "per_page": min(per_page, 200)}`, then `before`
and `after` are added only when truthy. -/
def paginationParams (before after : Option ℤ) (page per_page : ℤ) :
    List (String × ℤ) :=
  let base := [("page", page), ("per_page", min per_page 200)]
  let withBefore :=
    match before with
    | some b => if b = 0 then base else base ++ [("before", b)]
    | none => base
  match after with
  | some a => if a = 0 then withBefore else withBefore ++ [("after", a)]
  | none => withBefore

/-! ## Analytics (`src/server.py`) -/

/-- An activity record as consumed by the analytics functions.  Every
field may be absent; present numeric fields are rationals (Python
numbers). -/
structure Activity where
  type : Option String
  distance : Option ℚ
  moving_time : Option ℚ
  average_heartrate : Option ℚ
deriving DecidableEq, Repr

/-- Python division, which raises `ZeroDivisionError` on a zero
denominator. -/
def pyDiv (a b : ℚ) : Except PyErr ℚ :=
  if b = 0 then .error .zeroDivisionError else .ok (a / b)

/-- Body of `_calculate_pace` before the `except` clause.  For runs:
`(moving_time/60) / (distance/1000)`; for rides:
`(distance/1000) / (moving_time/3600)`; `0` otherwise.  Missing fields
default to `0` (`activity.get(..., 0)`); the divisions by the literal
constants cannot raise. -/
def calcPaceBody (a : Activity) : Except PyErr ℚ :=
  if a.type = some "Run" then
    pyDiv (a.moving_time.getD 0 / 60) (a.distance.getD 0 / 1000)
  else if a.type = some "Ride" then
    pyDiv (a.distance.getD 0 / 1000) (a.moving_time.getD 0 / 3600)
  else .ok 0

/-- Function `_calculate_pace`: the body wrapped in
`except (TypeError, ZeroDivisionError): return 0`.  The body's only
possible exceptions are exactly those two kinds, so every error is
caught. -/
def _calculate_pace (a : Activity) : ℚ :=
  match calcPaceBody a with
  | .ok v => v
  | .error _ => 0

/-- Function `_calculate_effort`: "Неизвестно" when `average_heartrate` is absent,
otherwise a three-way comparison.  The result is an `Except` to record
that no branch raises. -/
def _calculate_effort (a : Activity) : Except PyErr String :=
  match a.average_heartrate with
  | none => .ok "Неизвестно"
  | some hr =>
      if hr < 120 then .ok "Легкая"
      else if hr < 150 then .ok "Средняя"
      else .ok "Высокая"

/-- Decidable equality of `Except` results, used to evaluate concrete
runs. -/
instance exceptDecidableEq {ε α : Type} [DecidableEq ε] [DecidableEq α] :
    DecidableEq (Except ε α)
  | .ok a, .ok b =>
      if h : a = b then .isTrue (by rw [h]) else .isFalse (by simp [h])
  | .ok _, .error _ => .isFalse (by simp)
  | .error _, .ok _ => .isFalse (by simp)
  | .error a, .error b =>
      if h : a = b then .isTrue (by rw [h]) else .isFalse (by simp [h])

/-- Whether an `Except` computation finished without raising. -/
def exceptOk {ε α : Type} : Except ε α → Bool
  | .ok _ => true
  | .error _ => false

/-- Python `round` to the nearest integer with ties to even (banker's
rounding), on exact rationals.  `q.num.fdiv q.den` is the floor of `q`. -/
def pyRoundHalfEven (q : ℚ) : ℤ :=
  let f := q.num.fdiv (q.den : ℤ)
  if q - (f : ℚ) < 1 / 2 then f
  else if (1 : ℚ) / 2 < q - (f : ℚ) then f + 1
  else if f % 2 = 0 then f else f + 1

/-- Python `round(x, 2)` on exact rationals. -/
def pyRound2 (q : ℚ) : ℚ :=
  (pyRoundHalfEven (q * 100) : ℚ) / 100

/-- Result dict of `analyze_training_load`: the summary fields. -/
structure TrainingSummary where
  activities_count : ℕ
  total_distance : ℚ
  total_time : ℚ
  activities_by_type : List (Option String × ℕ)
  hr_easy : ℕ
  hr_medium : ℕ
  hr_hard : ℕ
deriving DecidableEq, Repr

/-- Increment the per-type counter dict
(`summary["activities_by_type"][activity_type] += 1`, creating the key
when absent). -/
def bumpType (m : List (Option String × ℕ)) (ty : Option String) :
    List (Option String × ℕ) :=
  if m.any (fun p => decide (p.1 = ty)) then
    m.map (fun p => if p.1 = ty then (p.1, p.2 + 1) else p)
  else m ++ [(ty, 1)]

/-- One iteration of the `for activity in activities` loop of
`analyze_training_load`: bump the type counter, add distance and moving
time (missing fields default to 0), and classify the heart rate into a
zone when it is truthy (`if hr:`). -/
def trainingStep (s : TrainingSummary) (a : Activity) : TrainingSummary :=
  let s1 := { s with activities_by_type := bumpType s.activities_by_type a.type }
  let s2 := { s1 with
    total_distance := s1.total_distance + a.distance.getD 0
    total_time := s1.total_time + a.moving_time.getD 0 }
  let hr := a.average_heartrate.getD 0
  if hr ≠ 0 then
    if hr < 120 then { s2 with hr_easy := s2.hr_easy + 1 }
    else if hr < 150 then { s2 with hr_medium := s2.hr_medium + 1 }
    else { s2 with hr_hard := s2.hr_hard + 1 }
  else s2

/-- Function `analyze_training_load`: `none` models the error dict returned for an
empty activity list; otherwise the loop above followed by the unit
conversions `round(total_distance / 1000, 2)` (km) and
`round(total_time / 3600, 2)` (hours). -/
def analyze_training_load (activities : List Activity) : Option TrainingSummary :=
  if activities.isEmpty then none
  else
    let s0 : TrainingSummary :=
      { activities_count := activities.length, total_distance := 0, total_time := 0
        activities_by_type := [], hr_easy := 0, hr_medium := 0, hr_hard := 0 }
    let s := activities.foldl trainingStep s0
    some { s with
      total_distance := pyRound2 (s.total_distance / 1000)
      total_time := pyRound2 (s.total_time / 3600) }

/-! ## StravaAuth token state (`src/strava/auth/strava_auth.py`) -/

/-- JSON body of a token-endpoint response as read by
`refresh_access_token`; each field the code touches may be absent. -/
structure TokenJson where
  access_token : Option String
  refresh_token : Option String
  expires_at : Option ℚ
deriving DecidableEq, Repr

/-- Outcome of one `requests.request` call against the OAuth token
endpoint: a transport failure (`requests.exceptions.RequestException`) or
a response with its `ok` flag and JSON body. -/
inductive RefreshOutcome where
  | networkError
  | response (ok : Bool) (body : TokenJson)
deriving DecidableEq, Repr

/-- Mutable fields of `class StravaAuth` that the token lifecycle touches
(`client_id`/`client_secret` are immutable configuration and omitted). -/
structure AuthState where
  access_token : Option String
  refresh_token : Option String
  token_expires_at : ℚ
  cached_token : Option String
  last_refresh : Option ℚ
  rate_limiter : RateLimiter
deriving DecidableEq, Repr

/-- Constant `self.token_expiry_buffer = 60` seconds. -/
def token_expiry_buffer : ℚ := 60

/-- Constant `self._max_retries = 3`. -/
def max_retries : ℕ := 3

/-- Method `StravaAuth.refresh_access_token`, parametrised by the transport
outcome of its single POST.  Mutations happen in source order, so a body
that has `access_token` but no `expires_at` raises `KeyError` on
`data["expires_at"]` after `access_token`/`refresh_token` were already
overwritten.  A network failure is re-raised as `RuntimeError`, a non-ok
response raises `RuntimeError`, a body without `access_token` raises
`ValueError`; none of these mutates the state. -/
def refresh_access_token (s : AuthState) (now : ℚ) (outcome : RefreshOutcome) :
    AuthState × Except PyErr String :=
  match outcome with
  | .networkError => (s, .error .runtimeError)
  | .response ok body =>
      if ok = false then (s, .error .runtimeError)
      else
        match body.access_token with
        | none => (s, .error .valueError)
        | some tok =>
            let s1 := { s with access_token := some tok }
            let s2 := { s1 with refresh_token := body.refresh_token <|> s1.refresh_token }
            match body.expires_at with
            | none => (s2, .error .keyError)
            | some exp =>
                let s3 := { s2 with
                  token_expires_at := exp
                  cached_token := some tok
                  last_refresh := some now }
                (s3, .ok tok)

/-- Python truthiness of the optional `_cached_token` string
(`not self._cached_token`): absent and empty are falsy. -/
def strTruthy : Option String → Bool
  | none => false
  | some t => t != ""

/-- The guard of `get_access_token`: the cached token is used iff it is
truthy and `now < token_expires_at - token_expiry_buffer`. -/
def cachedValid (s : AuthState) (now : ℚ) : Bool :=
  strTruthy s.cached_token && decide (now < s.token_expires_at - token_expiry_buffer)

/-- Method `StravaAuth.get_access_token`: return the cached token while it is
truthy and not about to expire, otherwise delegate to
`refresh_access_token` (whose transport outcome is the parameter). -/
def get_access_token (s : AuthState) (now : ℚ) (outcome : RefreshOutcome) :
    AuthState × Except PyErr String :=
  if cachedValid s now then (s, .ok (s.cached_token.getD ""))
  else refresh_access_token s now outcome

/-! ## Instrumented request machine (`make_authenticated_request`,
`make_request`)

The transport is an oracle `Env` giving the outcome of the n-th token
refresh and of the n-th API dispatch; `Exec` carries the auth state plus
ghost counters for refreshes performed, dispatches performed and
rate-limiter registrations, so that the theorems can speak about "exactly
one refresh" and "`add_request` was invoked".  The wall clock is held
fixed for the duration of one logical call. -/

/-- Outcome of one `requests.request` call against the API: a transport
failure or a response with the given status code. -/
inductive DispatchOutcome where
  | exc
  | resp (status : ℕ)
deriving DecidableEq, Repr

/-- Predicate `response.ok` of the HTTP library: status below 400. -/
def respOk (status : ℕ) : Bool := decide (status < 400)

/-- Transport oracle: outcome of the n-th token-endpoint call and of the
n-th API dispatch. -/
structure Env where
  refreshOutcome : ℕ → RefreshOutcome
  dispatchOutcome : ℕ → DispatchOutcome

/-- Execution state: the auth object plus ghost counters. -/
structure Exec where
  auth : AuthState
  nRefresh : ℕ
  nDispatch : ℕ
  nAdds : ℕ
deriving DecidableEq, Repr

/-- Perform one `refresh_access_token` call, consuming the next refresh
outcome from the oracle. -/
def runRefresh (env : Env) (now : ℚ) (e : Exec) : Exec × Except PyErr String :=
  let res := refresh_access_token e.auth now (env.refreshOutcome e.nRefresh)
  ({ e with auth := res.1, nRefresh := e.nRefresh + 1 }, res.2)

/-- Method `get_access_token` inside the instrumented machine: a valid cached
token is returned without consuming an oracle entry, otherwise one
refresh is performed. -/
def runGetToken (env : Env) (now : ℚ) (e : Exec) : Exec × Except PyErr String :=
  if cachedValid e.auth now then (e, .ok (e.auth.cached_token.getD ""))
  else runRefresh env now e

/-- Perform one API dispatch, consuming the next dispatch outcome. -/
def runDispatch (env : Env) (e : Exec) : Exec × DispatchOutcome :=
  ({ e with nDispatch := e.nDispatch + 1 }, env.dispatchOutcome e.nDispatch)

/-- Method `StravaAuth.make_authenticated_request`: obtain a token (propagating
refresh failures), dispatch; on a non-ok response with status 401 refresh
once and dispatch once more, raising `RuntimeError` if the retry is still
not ok; on any other non-ok status raise `RuntimeError`; a transport
exception in either dispatch is caught and re-raised as `RuntimeError`.
The result carries the status code of the successful response. -/
def make_authenticated_request (env : Env) (now : ℚ) (e : Exec) :
    Exec × Except PyErr ℕ :=
  match runGetToken env now e with
  | (e1, .error err) => (e1, .error err)
  | (e1, .ok _) =>
      match runDispatch env e1 with
      | (e2, .exc) => (e2, .error .runtimeError)
      | (e2, .resp status) =>
          if respOk status then (e2, .ok status)
          else if status = 401 then
            match runRefresh env now e2 with
            | (e3, .error err) => (e3, .error err)
            | (e3, .ok _) =>
                match runDispatch env e3 with
                | (e4, .exc) => (e4, .error .runtimeError)
                | (e4, .resp st2) =>
                    if respOk st2 then (e4, .ok st2)
                    else (e4, .error .runtimeError)
          else (e2, .error .runtimeError)

/-- The `can_make_request` check at the top of each attempt of
`make_request`: the boolean only gates a sleep, but the purge mutates
the limiter. -/
def purgeStep (now : ℚ) (e : Exec) : Exec :=
  { e with auth :=
      { e.auth with rate_limiter := (e.auth.rate_limiter.can_make_request now).1 } }

/-- The attempt loop of `StravaAuth.make_request`, with `fuel` the number
of attempts still available.  Each attempt first calls
`can_make_request` (see `purgeStep`), then runs
`make_authenticated_request`; on success the attempt is registered with
`add_request`; a `RuntimeError` is retried while attempts remain and
re-raised on the last one; other exceptions propagate immediately.
`fuel = 0` is unreachable from the entry point (`range(1, 4)` is
nonempty) and returns the error artificially. -/
def make_request_go (env : Env) (now : ℚ) : ℕ → Exec → Exec × Except PyErr ℕ
  | 0, e => (e, .error .runtimeError)
  | fuel + 1, e =>
      match make_authenticated_request env now (purgeStep now e) with
      | (e1, .ok status) =>
          let e2 := { e1 with
            auth := { e1.auth with rate_limiter := e1.auth.rate_limiter.add_request now }
            nAdds := e1.nAdds + 1 }
          (e2, .ok status)
      | (e1, .error .runtimeError) =>
          if fuel = 0 then (e1, .error .runtimeError)
          else make_request_go env now fuel e1
      | (e1, .error err) => (e1, .error err)

/-- Method `StravaAuth.make_request`: the attempt loop with
`self._max_retries = 3` attempts. -/
def make_request (env : Env) (now : ℚ) (e : Exec) : Exec × Except PyErr ℕ :=
  make_request_go env now max_retries e

/-! ## Theorems -/

/-- Claim C8: `analyze_training_load` on the two-activity list
(Run 5000 m / 1800 s / HR 140, Swim 2000 m / 3600 s / HR 110) returns a
summary with 2 activities, 7.0 km total distance, 1.5 h total time and
heart-rate zones easy = 1, medium = 1, hard = 0. -/
theorem analyze_training_load_example :
    analyze_training_load
      [{ type := some "Run", distance := some 5000, moving_time := some 1800,
         average_heartrate := some 140 },
       { type := some "Swim", distance := some 2000, moving_time := some 3600,
         average_heartrate := some 110 }]
    = some { activities_count := 2, total_distance := 7, total_time := 3 / 2,
             activities_by_type := [(some "Run", 1), (some "Swim", 1)],
             hr_easy := 1, hr_medium := 1, hr_hard := 0 } := by
  with_unfolding_all decide

/-- Claim C7: with `per_page > 200` the outbound `per_page` is capped to
200, and omitted `before`/`after` arguments leave the corresponding keys
entirely absent from the outbound parameter set. -/
theorem paginationParams_cap_and_omission (before after : Option ℤ)
    (page per_page : ℤ) (h : 200 < per_page) :
    ("per_page", (200 : ℤ)) ∈ paginationParams before after page per_page
    ∧ paginationParams none none page per_page = [("page", page), ("per_page", 200)]
    ∧ (before = none →
        "before" ∉ (paginationParams before after page per_page).map Prod.fst)
    ∧ (after = none →
        "after" ∉ (paginationParams before after page per_page).map Prod.fst) := by
  have hmin : min per_page 200 = 200 := min_eq_right h.le
  refine ⟨?_, ?_, ?_, ?_⟩
  · rcases before with _ | b <;> rcases after with _ | a <;>
      simp only [paginationParams, hmin] <;> (try split_ifs) <;>
      exact List.mem_cons_of_mem _ (List.mem_cons_self _ _)
  · simp [paginationParams, hmin]
  · rintro rfl
    rcases after with _ | a <;> simp only [paginationParams, hmin] <;>
      (try split_ifs) <;> simp
  · rintro rfl
    rcases before with _ | b <;> simp only [paginationParams, hmin] <;>
      (try split_ifs) <;> simp

/-- Witness for C7 at the concrete input of the spec: `per_page = 250`
with both filters omitted. -/
theorem paginationParams_cap_and_omission_witness :
    ("per_page", (200 : ℤ)) ∈ paginationParams none none 1 250
    ∧ paginationParams none none 1 250 = [("page", 1), ("per_page", 200)]
    ∧ "before" ∉ (paginationParams none none 1 250).map Prod.fst
    ∧ "after" ∉ (paginationParams none none 1 250).map Prod.fst := by
  have h := paginationParams_cap_and_omission none none 1 250 (by decide)
  exact ⟨h.1, h.2.1, h.2.2.1 rfl, h.2.2.2 rfl⟩

/-- Claim C9: the analytics helpers are defensive — `_calculate_effort`
returns the "unknown" result when `average_heartrate` is absent and never
raises on any partially-populated record, and `_calculate_pace` returns
`0` (instead of a division fault) whenever distance or moving time is
zero or missing. -/
theorem analytics_defensive (a : Activity) :
    (a.distance.getD 0 = 0 ∨ a.moving_time.getD 0 = 0 → _calculate_pace a = 0)
    ∧ (a.average_heartrate = none → _calculate_effort a = .ok "Неизвестно")
    ∧ exceptOk (_calculate_effort a) = true := by
  refine ⟨?_, ?_, ?_⟩
  · intro h
    simp only [_calculate_pace, calcPaceBody, pyDiv]
    by_cases hR : a.type = some "Run"
    · simp only [hR, if_true, eq_self_iff_true]
      rcases h with h | h
      · rw [h]
        norm_num
      · rw [h]
        by_cases hd : a.distance.getD 0 / 1000 = 0 <;> simp [hd]
    · by_cases hRide : a.type = some "Ride"
      · rw [if_neg hR, if_pos hRide]
        rcases h with h | h
        · rw [h]
          by_cases hm : a.moving_time.getD 0 / 3600 = 0 <;> simp [hm]
        · rw [h]
          norm_num
      · simp [hR, hRide]
  · intro h
    unfold _calculate_effort
    rw [h]
  · unfold _calculate_effort exceptOk
    rcases a.average_heartrate with _ | hr
    · rfl
    · by_cases h1 : hr < 120 <;> by_cases h2 : hr < 150 <;> simp [h1, h2]

/-- A Run with zero distance and missing heart rate, used as the C9
witness input. -/
def zeroDistanceRun : Activity :=
  { type := some "Run", distance := some 0, moving_time := some 1800,
    average_heartrate := none }

/-- Witness for C9: a Run with zero distance and missing heart rate. -/
theorem analytics_defensive_witness :
    _calculate_pace zeroDistanceRun = 0
    ∧ _calculate_effort zeroDistanceRun = .ok "Неизвестно"
    ∧ exceptOk (_calculate_effort zeroDistanceRun) = true := by
  have h := analytics_defensive zeroDistanceRun
  exact ⟨h.1 (Or.inl rfl), h.2.1 rfl, h.2.2⟩

/-- Both windows of `addMany` just append the registered timestamps, and
the limits never change. -/
theorem RateLimiter.addMany_fields (rl : RateLimiter) (ts : List ℚ) :
    (rl.addMany ts).requests_15min = rl.requests_15min ++ ts
    ∧ (rl.addMany ts).requests_daily = rl.requests_daily ++ ts
    ∧ (rl.addMany ts).limit_15min = rl.limit_15min
    ∧ (rl.addMany ts).limit_daily = rl.limit_daily := by
  induction ts generalizing rl with
  | nil => simp [RateLimiter.addMany]
  | cons t ts ih =>
      have h := ih (rl.add_request t)
      simp only [RateLimiter.addMany, List.foldl_cons] at h ⊢
      simpa [RateLimiter.add_request] using h

/-- Claim C3: `can_make_request` purges timestamps with
`now - t >= 900` (short window) and `now - t >= 86400` (daily window) and
admits iff both retained counts are strictly below 100 and 1000; after
`N < 100` registrations inside the window it stays true, after exactly
100 it is false, and it becomes true again once the oldest registration
has aged out of the short window. -/
theorem can_make_request_purge_and_limits (s : RateLimiter) (now now' t0 : ℚ)
    (ts rest : List ℚ)
    (hts : ∀ t ∈ ts, now - t < 900) (hN : ts.length < 100)
    (hfresh : ∀ t ∈ t0 :: rest, now - t < 900)
    (hlen : (t0 :: rest).length = 100)
    (hold : 900 ≤ now' - t0)
    (hrest : ∀ t ∈ rest, now' - t < 900) :
    (s.can_make_request now).1.requests_15min
        = s.requests_15min.filter (fun t => decide (now - t < 900))
    ∧ (s.can_make_request now).1.requests_daily
        = s.requests_daily.filter (fun t => decide (now - t < 86400))
    ∧ ((s.can_make_request now).2 = true ↔
        (s.requests_15min.filter (fun t => decide (now - t < 900))).length < s.limit_15min
        ∧ (s.requests_daily.filter (fun t => decide (now - t < 86400))).length
            < s.limit_daily)
    ∧ ((RateLimiter.init.addMany ts).can_make_request now).2 = true
    ∧ ((RateLimiter.init.addMany (t0 :: rest)).can_make_request now).2 = false
    ∧ ((RateLimiter.init.addMany (t0 :: rest)).can_make_request now').2 = true := by
  have hdailyOf : ∀ u : ℚ, ∀ t : ℚ, u - t < 900 → u - t < 86400 := by
    intro u t h
    linarith
  refine ⟨rfl, rfl, ?_, ?_, ?_, ?_⟩
  · simp [RateLimiter.can_make_request]
  · rcases RateLimiter.addMany_fields RateLimiter.init ts with ⟨h15, hd, hl15, hld⟩
    have h15' : (RateLimiter.init.addMany ts).requests_15min = ts := h15
    have hd' : (RateLimiter.init.addMany ts).requests_daily = ts := hd
    have hl15' : (RateLimiter.init.addMany ts).limit_15min = 100 := hl15
    have hld' : (RateLimiter.init.addMany ts).limit_daily = 1000 := hld
    have hf15 : ts.filter (fun t => decide (now - t < 900)) = ts :=
      List.filter_eq_self.mpr fun t ht => decide_eq_true (hts t ht)
    have hfd : ts.filter (fun t => decide (now - t < 86400)) = ts :=
      List.filter_eq_self.mpr fun t ht => decide_eq_true (hdailyOf now t (hts t ht))
    simp only [RateLimiter.can_make_request, h15', hd', hl15', hld', hf15, hfd]
    simp [hN, lt_of_lt_of_le hN (by norm_num : (100 : ℕ) ≤ 1000)]
  · rcases RateLimiter.addMany_fields RateLimiter.init (t0 :: rest) with ⟨h15, _, hl15, _⟩
    have h15' : (RateLimiter.init.addMany (t0 :: rest)).requests_15min = t0 :: rest := h15
    have hl15' : (RateLimiter.init.addMany (t0 :: rest)).limit_15min = 100 := hl15
    have hf15 : (t0 :: rest).filter (fun t => decide (now - t < 900)) = t0 :: rest :=
      List.filter_eq_self.mpr fun t ht => decide_eq_true (hfresh t ht)
    simp only [RateLimiter.can_make_request, h15', hl15', hf15, hlen]
    simp
  · rcases RateLimiter.addMany_fields RateLimiter.init (t0 :: rest) with ⟨h15, hd, hl15, hld⟩
    have h15' : (RateLimiter.init.addMany (t0 :: rest)).requests_15min = t0 :: rest := h15
    have hd' : (RateLimiter.init.addMany (t0 :: rest)).requests_daily = t0 :: rest := hd
    have hl15' : (RateLimiter.init.addMany (t0 :: rest)).limit_15min = 100 := hl15
    have hld' : (RateLimiter.init.addMany (t0 :: rest)).limit_daily = 1000 := hld
    have hf15 : (t0 :: rest).filter (fun t => decide (now' - t < 900)) = rest := by
      rw [List.filter_cons_of_neg (by simpa using not_lt.mpr hold)]
      exact List.filter_eq_self.mpr fun t ht => decide_eq_true (hrest t ht)
    have hrestlen : rest.length = 99 := by
      simpa using hlen
    have hdlen : ((t0 :: rest).filter (fun t => decide (now' - t < 86400))).length
        < 1000 := by
      calc ((t0 :: rest).filter (fun t => decide (now' - t < 86400))).length
          ≤ (t0 :: rest).length := List.length_filter_le _ _
        _ = 100 := hlen
        _ < 1000 := by norm_num
    simp only [RateLimiter.can_make_request, h15', hd', hl15', hld', hf15, hrestlen]
    simp [hdlen]

/-- Witness for C3: from the empty limiter, zero registrations admit; one
hundred registrations (one at time 0, ninety-nine at time 500) deny at
time 500; after the oldest has aged out (time 900) the limiter admits
again. -/
theorem can_make_request_purge_and_limits_witness :
    ((RateLimiter.init.addMany []).can_make_request 500).2 = true
    ∧ ((RateLimiter.init.addMany (0 :: List.replicate 99 500)).can_make_request 500).2
        = false
    ∧ ((RateLimiter.init.addMany (0 :: List.replicate 99 500)).can_make_request 900).2
        = true := by
  have h := can_make_request_purge_and_limits RateLimiter.init 500 900 0 []
    (List.replicate 99 500)
    (by intro t ht; cases ht)
    (by norm_num)
    (by
      intro t ht
      rcases List.mem_cons.mp ht with rfl | h'
      · norm_num
      · rw [List.eq_of_mem_replicate h']
        norm_num)
    (by simp)
    (by norm_num)
    (by
      intro t ht
      rw [List.eq_of_mem_replicate ht]
      norm_num)
  exact ⟨h.2.2.2.1, h.2.2.2.2.1, h.2.2.2.2.2⟩

/-- Each `step` preserves the property that the short window is a
sublist of the daily window: `add_request` appends the same timestamp to
both, and the short window's purge predicate implies the daily one. -/
theorem RateLimiter.step_sublist (rl : RateLimiter) (op : RLOp)
    (h : List.Sublist rl.requests_15min rl.requests_daily) :
    List.Sublist (rl.step op).requests_15min (rl.step op).requests_daily := by
  cases op with
  | check now =>
      simp only [RateLimiter.step, RateLimiter.can_make_request]
      refine (h.filter _).trans (List.monotone_filter_right _ ?_)
      intro a ha
      have h900 : now - a < 900 := of_decide_eq_true ha
      exact decide_eq_true (by linarith)
  | add now =>
      simpa [RateLimiter.step, RateLimiter.add_request]
        using h.append (List.Sublist.refl [now])

/-- Claim C10: after any sequence of `can_make_request`/`add_request`
operations from the initial empty state, the short window's timestamps
form a sub-multiset of the daily window's timestamps; in particular its
length never exceeds the daily window's length. -/
theorem rateLimiter_short_window_sub_daily (ops : List RLOp) :
    ((RateLimiter.init.run ops).requests_15min : Multiset ℚ)
        ≤ ((RateLimiter.init.run ops).requests_daily : Multiset ℚ)
    ∧ (RateLimiter.init.run ops).requests_15min.length
        ≤ (RateLimiter.init.run ops).requests_daily.length := by
  suffices h : ∀ rl : RateLimiter, List.Sublist rl.requests_15min rl.requests_daily →
      List.Sublist (rl.run ops).requests_15min (rl.run ops).requests_daily by
    have hrun := h RateLimiter.init (by simp [RateLimiter.init])
    exact ⟨Multiset.coe_le.mpr hrun.subperm, hrun.length_le⟩
  induction ops with
  | nil =>
      intro rl h
      simpa [RateLimiter.run] using h
  | cons op ops ih =>
      intro rl h
      have hstep := RateLimiter.step_sublist rl op h
      simpa [RateLimiter.run, List.foldl_cons] using ih (rl.step op) hstep

/-- Claim C6: `get` misses for a key never set; hits and leaves the dict
unchanged while `now - stored_at < ttl`; deletes the entry (leaving other
keys untouched) and misses once `now - stored_at >= ttl`; `set` stores
the value with the current timestamp, overwriting any prior entry; hence
an entry set at time T is retrievable while `now - T < ttl` and absent,
with the entry removed, as soon as `now - T >= ttl`. -/
theorem cache_get_set_spec {V : Type} (c : StravaCache V) (key k2 : String) (v : V)
    (item : CacheItem V) (now T : ℚ) :
    (c.cacheMap key = none → c.get key now = (c, none))
    ∧ (c.cacheMap key = some item → now - item.timestamp < c.ttl →
        c.get key now = (c, some item.value))
    ∧ (c.cacheMap key = some item → c.ttl ≤ now - item.timestamp →
        (c.get key now).2 = none
        ∧ (c.get key now).1.cacheMap key = none
        ∧ (k2 ≠ key → (c.get key now).1.cacheMap k2 = c.cacheMap k2))
    ∧ ((c.set key v T).cacheMap key = some ⟨v, T⟩)
    ∧ (k2 ≠ key → (c.set key v T).cacheMap k2 = c.cacheMap k2)
    ∧ (now - T < c.ttl → ((c.set key v T).get key now).2 = some v)
    ∧ (c.ttl ≤ now - T → ((c.set key v T).get key now).2 = none
        ∧ ((c.set key v T).get key now).1.cacheMap key = none) := by
  refine ⟨?_, ?_, ?_, ?_, ?_, ?_, ?_⟩
  · intro h
    simp [StravaCache.get, h]
  · intro h hfresh
    simp [StravaCache.get, h, hfresh]
  · intro h hexp
    have hnot : ¬(now - item.timestamp < c.ttl) := not_lt.mpr hexp
    refine ⟨?_, ?_, ?_⟩
    · simp [StravaCache.get, h, hnot]
    · simp [StravaCache.get, h, hnot]
    · intro hk
      simp [StravaCache.get, h, hnot, hk]
  · simp [StravaCache.set]
  · intro hk
    simp [StravaCache.set, hk]
  · intro hfresh
    simp [StravaCache.get, StravaCache.set, hfresh]
  · intro hexp
    have hnot : ¬(now - T < c.ttl) := not_lt.mpr hexp
    constructor
    · simp [StravaCache.get, StravaCache.set, hnot]
    · simp [StravaCache.get, StravaCache.set, hnot]

/-- The empty five-minute cache of `src/server.py`
(`StravaCache(ttl=300)`), holding natural-number payloads for the
witness. -/
def emptyCache : StravaCache ℕ := { ttl := 300, cacheMap := fun _ => none }

/-- Witness for C6: on the empty TTL-300 cache, a lookup of an unset key
misses; an entry set at time 10 is retrievable at time 100 and is gone
(value and entry both) at time 400. -/
theorem cache_get_set_spec_witness :
    StravaCache.get emptyCache "activity_1" 100 = (emptyCache, none)
    ∧ ((emptyCache.set "activity_1" 7 10).get "activity_1" 100).2 = some 7
    ∧ ((emptyCache.set "activity_1" 7 10).get "activity_1" 400).2 = none
    ∧ ((emptyCache.set "activity_1" 7 10).get "activity_1" 400).1.cacheMap "activity_1"
        = none := by
  have h1 := cache_get_set_spec emptyCache "activity_1" "other" 7 ⟨7, 10⟩ 100 10
  have h2 := cache_get_set_spec emptyCache "activity_1" "other" 7 ⟨7, 10⟩ 400 10
  refine ⟨h1.1 rfl, h1.2.2.2.2.2.1 (by norm_num [emptyCache]), ?_, ?_⟩
  · exact (h2.2.2.2.2.2.2 (by norm_num [emptyCache])).1
  · exact (h2.2.2.2.2.2.2 (by norm_num [emptyCache])).2

/-- Claim C2: a token refresh whose success response lacks
`access_token` raises the validation error and leaves every token field
untouched, and a network failure during refresh likewise raises and
leaves the state untouched. -/
theorem refresh_missing_token_preserves_state (s : AuthState) (now : ℚ)
    (body : TokenJson) (hmiss : body.access_token = none) :
    refresh_access_token s now (.response true body) = (s, .error .valueError)
    ∧ refresh_access_token s now .networkError = (s, .error .runtimeError) := by
  constructor
  · simp [refresh_access_token, hmiss]
  · simp [refresh_access_token]

/-- An auth state with live token material, used by several witnesses:
cached token "tok0" valid until epoch second 100000. -/
def liveAuthState : AuthState :=
  { access_token := some "tok0", refresh_token := some "refresh0",
    token_expires_at := 100000, cached_token := some "tok0",
    last_refresh := some 0, rate_limiter := RateLimiter.init }

/-- Witness for C2: refreshing `liveAuthState` against a success response
whose body is empty raises the validation error with the state intact,
and a network failure raises the runtime error with the state intact. -/
theorem refresh_missing_token_preserves_state_witness :
    refresh_access_token liveAuthState 50 (.response true ⟨none, none, none⟩)
        = (liveAuthState, .error .valueError)
    ∧ refresh_access_token liveAuthState 50 .networkError
        = (liveAuthState, .error .runtimeError) :=
  refresh_missing_token_preserves_state liveAuthState 50 ⟨none, none, none⟩ rfl

/-- An auth state with no token material at all (fresh process without
environment tokens), used by counterexamples and witnesses. -/
def noTokenAuthState : AuthState :=
  { access_token := none, refresh_token := some "refresh0",
    token_expires_at := 0, cached_token := none,
    last_refresh := none, rate_limiter := RateLimiter.init }

/-- Counterexample for C4: `get_access_token` called at `now = 1000`
against a provider refresh response carrying `expires_at = 0` returns
the fresh token even though that token's expiry (minus the 60 s buffer)
is already in the past — the refresh path performs no expiry check on
the provider's value, so the claim's "never returns a token whose expiry
minus the buffer has passed" fails. -/
theorem get_access_token_returns_expired_counterexample :
    (get_access_token noTokenAuthState 1000
        (.response true ⟨some "t1", none, some 0⟩)).2 = .ok "t1"
    ∧ (get_access_token noTokenAuthState 1000
        (.response true ⟨some "t1", none, some 0⟩)).1.token_expires_at = 0
    ∧ ¬((1000 : ℚ) < 0 - token_expiry_buffer) := by
  refine ⟨?_, ?_, by norm_num [token_expiry_buffer]⟩ <;>
    simp [get_access_token, cachedValid, strTruthy, refresh_access_token,
      noTokenAuthState]

/-- Claim C4 (amended): with a truthy cached token and
`now < token_expires_at - 60` the cached token is returned and no refresh
occurs (the state is unchanged and the transport outcome is never
consulted); otherwise the call is exactly a `refresh_access_token` call,
and on a success response it installs and returns the provider's token
and expiry as-is — the freshness guarantee therefore holds for the
cached path only. -/
theorem get_access_token_spec (s : AuthState) (now : ℚ) (oc : RefreshOutcome)
    (body : TokenJson) (tok : String) (exp : ℚ) :
    (cachedValid s now = true →
        get_access_token s now oc = (s, .ok (s.cached_token.getD "")))
    ∧ (cachedValid s now = false →
        get_access_token s now oc = refresh_access_token s now oc)
    ∧ (cachedValid s now = false → oc = .response true body →
        body.access_token = some tok → body.expires_at = some exp →
        (get_access_token s now oc).2 = .ok tok
        ∧ (get_access_token s now oc).1.cached_token = some tok
        ∧ (get_access_token s now oc).1.token_expires_at = exp) := by
  refine ⟨?_, ?_, ?_⟩
  · intro h
    simp [get_access_token, h]
  · intro h
    simp [get_access_token, h]
  · rintro h rfl htok hexp
    simp [get_access_token, h, refresh_access_token, htok, hexp]

/-- Witness for C4: a live cached token is returned untouched at
`now = 50`, while the tokenless state delegates to the refresh and
returns the provider's fresh token. -/
theorem get_access_token_spec_witness :
    get_access_token liveAuthState 50 (.response true ⟨some "tokN", none, some 200000⟩)
        = (liveAuthState, .ok "tok0")
    ∧ get_access_token noTokenAuthState 50
          (.response true ⟨some "tokN", none, some 200000⟩)
        = refresh_access_token noTokenAuthState 50
          (.response true ⟨some "tokN", none, some 200000⟩)
    ∧ (get_access_token noTokenAuthState 50
          (.response true ⟨some "tokN", none, some 200000⟩)).2 = .ok "tokN" := by
  have h1 := get_access_token_spec liveAuthState 50
    (.response true ⟨some "tokN", none, some 200000⟩)
    ⟨some "tokN", none, some 200000⟩ "tokN" 200000
  have h2 := get_access_token_spec noTokenAuthState 50
    (.response true ⟨some "tokN", none, some 200000⟩)
    ⟨some "tokN", none, some 200000⟩ "tokN" 200000
  have hcv : cachedValid liveAuthState 50 = true := by
    with_unfolding_all decide
  have hncv : cachedValid noTokenAuthState 50 = false := by
    simp [cachedValid, strTruthy, noTokenAuthState]
  exact ⟨h1.1 hcv, h2.2.1 hncv, (h2.2.2 hncv rfl rfl rfl).1⟩

/-- Helper `runRefresh` leaves `nAdds` and `nDispatch` untouched and performs
exactly one refresh. -/
theorem runRefresh_ghost (env : Env) (now : ℚ) (e : Exec) :
    (runRefresh env now e).1.nAdds = e.nAdds
    ∧ (runRefresh env now e).1.nDispatch = e.nDispatch
    ∧ (runRefresh env now e).1.nRefresh = e.nRefresh + 1 := by
  simp [runRefresh]

/-- Helper `runGetToken` leaves `nAdds` and `nDispatch` untouched and performs
at most one refresh. -/
theorem runGetToken_ghost (env : Env) (now : ℚ) (e : Exec) :
    (runGetToken env now e).1.nAdds = e.nAdds
    ∧ (runGetToken env now e).1.nDispatch = e.nDispatch
    ∧ e.nRefresh ≤ (runGetToken env now e).1.nRefresh
    ∧ (runGetToken env now e).1.nRefresh ≤ e.nRefresh + 1 := by
  by_cases h : cachedValid e.auth now <;> simp [runGetToken, runRefresh, h]

/-- Helper `runDispatch` leaves `nAdds` and `nRefresh` untouched and performs
exactly one dispatch. -/
theorem runDispatch_ghost (env : Env) (e : Exec) :
    (runDispatch env e).1.nAdds = e.nAdds
    ∧ (runDispatch env e).1.nRefresh = e.nRefresh
    ∧ (runDispatch env e).1.nDispatch = e.nDispatch + 1 := by
  simp [runDispatch]

/-- One `make_authenticated_request` call never touches `nAdds` and
performs at most two refreshes and at most two dispatches. -/
theorem make_authenticated_request_ghost (env : Env) (now : ℚ) (e : Exec) :
    (make_authenticated_request env now e).1.nAdds = e.nAdds
    ∧ (make_authenticated_request env now e).1.nRefresh ≤ e.nRefresh + 2
    ∧ (make_authenticated_request env now e).1.nDispatch ≤ e.nDispatch + 2 := by
  have hg := runGetToken_ghost env now e
  rcases hgt : runGetToken env now e with ⟨e1, r1⟩
  rw [hgt] at hg
  simp only [Prod.fst] at hg
  unfold make_authenticated_request
  rw [hgt]
  cases r1 with
  | error err =>
      simp only []
      omega
  | ok tok =>
      have hd := runDispatch_ghost env e1
      rcases hdd : runDispatch env e1 with ⟨e2, o⟩
      rw [hdd] at hd
      simp only [Prod.fst] at hd
      simp only []
      rw [hdd]
      cases o with
      | exc =>
          simp only []
          omega
      | resp status =>
          simp only []
          cases hok : respOk status with
          | true =>
              simp only [hok, if_true]
              omega
          | false =>
              simp only [hok, Bool.false_eq_true, if_false]
              by_cases h401 : status = 401
              · simp only [h401, eq_self_iff_true, ite_true]
                have hr := runRefresh_ghost env now e2
                rcases hrr : runRefresh env now e2 with ⟨e3, r3⟩
                rw [hrr] at hr
                simp only [Prod.fst] at hr
                try rw [hrr]
                cases r3 with
                | error err =>
                    simp only []
                    omega
                | ok tok2 =>
                    have hd2 := runDispatch_ghost env e3
                    rcases hdd2 : runDispatch env e3 with ⟨e4, o2⟩
                    rw [hdd2] at hd2
                    simp only [Prod.fst] at hd2
                    simp only []
                    try rw [hdd2]
                    cases o2 with
                    | exc =>
                        simp only []
                        omega
                    | resp st2 =>
                        simp only []
                        cases hok2 : respOk st2 <;>
                          simp only [hok2, Bool.false_eq_true, Bool.true_eq_false,
                            if_true, if_false, ite_true, ite_false] <;>
                          omega
              · simp only [if_neg h401]
                omega

/-- Helper `purgeStep` leaves all ghost counters untouched. -/
theorem purgeStep_counters (now : ℚ) (e : Exec) :
    (purgeStep now e).nAdds = e.nAdds
    ∧ (purgeStep now e).nRefresh = e.nRefresh
    ∧ (purgeStep now e).nDispatch = e.nDispatch :=
  ⟨rfl, rfl, rfl⟩

/-- Through the attempt loop, `add_request` is registered exactly once
when the final result is a success, and not at all when the loop ends in
an error. -/
theorem make_request_go_adds (env : Env) (now : ℚ) (fuel : ℕ) :
    ∀ e : Exec,
      (exceptOk (make_request_go env now fuel e).2 = true →
          (make_request_go env now fuel e).1.nAdds = e.nAdds + 1)
      ∧ (exceptOk (make_request_go env now fuel e).2 = false →
          (make_request_go env now fuel e).1.nAdds = e.nAdds) := by
  induction fuel with
  | zero =>
      intro e
      simp [make_request_go, exceptOk]
  | succ fuel ih =>
      intro e
      have hm := (make_authenticated_request_ghost env now (purgeStep now e)).1
      rw [(purgeStep_counters now e).1] at hm
      rcases hmr : make_authenticated_request env now (purgeStep now e) with ⟨e1, r⟩
      rw [hmr] at hm
      simp only [Prod.fst] at hm
      simp only [make_request_go]
      try rw [hmr]
      cases r with
      | ok status =>
          simp [exceptOk, hm]
      | error err =>
          cases err with
          | runtimeError =>
              by_cases hf : fuel = 0
              · simp [hf, exceptOk, hm]
              · have hrec := ih e1
                simp only [if_neg hf]
                rw [← hm]
                exact hrec
          | valueError => simp [exceptOk, hm]
          | keyError => simp [exceptOk, hm]
          | typeError => simp [exceptOk, hm]
          | zeroDivisionError => simp [exceptOk, hm]

/-- Through the attempt loop with `fuel` attempts left, at most
`2 * fuel` refreshes and `2 * fuel` dispatches happen. -/
theorem make_request_go_counts (env : Env) (now : ℚ) (fuel : ℕ) :
    ∀ e : Exec,
      (make_request_go env now fuel e).1.nRefresh ≤ e.nRefresh + 2 * fuel
      ∧ (make_request_go env now fuel e).1.nDispatch ≤ e.nDispatch + 2 * fuel := by
  induction fuel with
  | zero =>
      intro e
      simp [make_request_go]
  | succ fuel ih =>
      intro e
      have hm := make_authenticated_request_ghost env now (purgeStep now e)
      rw [(purgeStep_counters now e).2.1, (purgeStep_counters now e).2.2] at hm
      rcases hmr : make_authenticated_request env now (purgeStep now e) with ⟨e1, r⟩
      rw [hmr] at hm
      simp only [Prod.fst] at hm
      simp only [make_request_go]
      try rw [hmr]
      cases r with
      | ok status =>
          simp only []
          refine ⟨?_, ?_⟩ <;> omega
      | error err =>
          cases err with
          | runtimeError =>
              by_cases hf : fuel = 0
              · simp only [hf, eq_self_iff_true, ite_true]
                omega
              · have hrec := ih e1
                simp only [if_neg hf]
                omega
          | valueError => simp only []; omega
          | keyError => simp only []; omega
          | typeError => simp only []; omega
          | zeroDivisionError => simp only []; omega

/-- Execution state at the start of a logical call with a live cached
token and no prior requests. -/
def liveExec : Exec :=
  { auth := liveAuthState, nRefresh := 0, nDispatch := 0, nAdds := 0 }

/-- Transport oracle: every token refresh succeeds with a fresh token,
every API dispatch yields HTTP 500. -/
def env500 : Env :=
  { refreshOutcome := fun _ => .response true ⟨some "tokN", none, some 200000⟩
    dispatchOutcome := fun _ => .resp 500 }

/-- Transport oracle: every token refresh succeeds, every API dispatch
yields HTTP 200. -/
def envOk : Env :=
  { refreshOutcome := fun _ => .response true ⟨some "tokN", none, some 200000⟩
    dispatchOutcome := fun _ => .resp 200 }

/-- Transport oracle: every token refresh succeeds, every API dispatch
yields HTTP 401. -/
def env401 : Env :=
  { refreshOutcome := fun _ => .response true ⟨some "tokN", none, some 200000⟩
    dispatchOutcome := fun _ => .resp 401 }

/-- Transport oracle: refreshes succeed; the first API dispatch yields
HTTP 401 and every later one HTTP 200. -/
def env401ThenOk : Env :=
  { refreshOutcome := fun _ => .response true ⟨some "tokN", none, some 200000⟩
    dispatchOutcome := fun n => if n = 0 then .resp 401 else .resp 200 }

/-- Counterexample for C5: with every dispatch answered by HTTP 500,
`make_request` receives three responses from the transport (one per
attempt) yet never invokes `add_request` — a completed dispatch with a
non-2xx status is not registered, because `make_authenticated_request`
raises before the `add_request()` line is reached. -/
theorem make_request_5xx_not_registered_counterexample :
    (make_request env500 0 liveExec).1.nDispatch = 3
    ∧ (make_request env500 0 liveExec).1.nAdds = 0
    ∧ (make_request env500 0 liveExec).2 = .error .runtimeError := by
  with_unfolding_all decide

/-- Claim C5 (amended): `add_request` is invoked exactly once per
`make_request` call when the call returns a response (necessarily a
successful one), and never when the call ends in an exception — in
particular dispatches that complete with a non-2xx status are not
registered. -/
theorem make_request_registers_iff_success (env : Env) (now : ℚ) (e : Exec) :
    (exceptOk (make_request env now e).2 = true →
        (make_request env now e).1.nAdds = e.nAdds + 1)
    ∧ (exceptOk (make_request env now e).2 = false →
        (make_request env now e).1.nAdds = e.nAdds) :=
  make_request_go_adds env now max_retries e

/-- Witness for C5 (amended): a succeeding call registers exactly one
request, a call failing with HTTP 500 on every dispatch registers
none. -/
theorem make_request_registers_iff_success_witness :
    (make_request envOk 0 liveExec).1.nAdds = liveExec.nAdds + 1
    ∧ (make_request env500 0 liveExec).1.nAdds = liveExec.nAdds := by
  exact ⟨(make_request_registers_iff_success envOk 0 liveExec).1
      (by with_unfolding_all decide),
    (make_request_registers_iff_success env500 0 liveExec).2
      (by with_unfolding_all decide)⟩

/-- Counterexample for C1: with every dispatch answered by HTTP 401,
one `make_request` call performs three forced refreshes and six
dispatches — `make_request` catches the `RuntimeError` that
`make_authenticated_request` raises after its refresh-and-retry and runs
the whole cycle again on each of its three attempts, so the refresh and
retry are not "exactly one" per logical call (and the surfaced failure
is a `RuntimeError`; the code has no distinct auth-error type). -/
theorem make_request_persistent_401_counterexample :
    (make_request env401 0 liveExec).1.nRefresh = 3
    ∧ (make_request env401 0 liveExec).1.nDispatch = 6
    ∧ (make_request env401 0 liveExec).2 = .error .runtimeError := by
  with_unfolding_all decide

/-- Claim C1 (amended): within one `make_authenticated_request` call a
401 response triggers exactly one forced refresh and exactly one retry
dispatch; if the retry succeeds its response is returned, and if it
fails the call raises `RuntimeError` without further refreshes or
retries.  `make_request`, however, retries the whole cycle up to its
three attempts, so one logical call performs at most six refreshes and
six dispatches — bounded, never an unbounded 401 loop. -/
theorem make_authenticated_request_single_401_cycle (env1 env2 : Env) (now : ℚ)
    (e f : Exec) (body : TokenJson) (tok : String) (exp : ℚ) (st2 : ℕ)
    (hcv1 : cachedValid e.auth now = true)
    (hd1 : env1.dispatchOutcome e.nDispatch = .resp 401)
    (hrf1 : env1.refreshOutcome e.nRefresh = .response true body)
    (htok : body.access_token = some tok)
    (hexp : body.expires_at = some exp)
    (hd2 : env1.dispatchOutcome (e.nDispatch + 1) = .resp st2) :
    ((make_authenticated_request env1 now e).1.nRefresh = e.nRefresh + 1
      ∧ (make_authenticated_request env1 now e).1.nDispatch = e.nDispatch + 2
      ∧ (respOk st2 = true → (make_authenticated_request env1 now e).2 = .ok st2)
      ∧ (respOk st2 = false →
          (make_authenticated_request env1 now e).2 = .error .runtimeError))
    ∧ ((make_request env2 now f).1.nRefresh ≤ f.nRefresh + 6
      ∧ (make_request env2 now f).1.nDispatch ≤ f.nDispatch + 6) := by
  constructor
  · have h401 : respOk 401 = false := by decide
    simp only [make_authenticated_request, runGetToken, hcv1, if_true, ite_true,
      runDispatch, hd1, h401, Bool.false_eq_true, if_false, ite_false,
      eq_self_iff_true, runRefresh, refresh_access_token, hrf1, htok, hexp]
    cases hok : respOk st2 <;>
      simp [hok, hd2]
  · have hb := make_request_go_counts env2 now max_retries f
    exact ⟨by simpa [make_request, max_retries] using hb.1,
      by simpa [make_request, max_retries] using hb.2⟩

/-- Witness for C1 (amended): a 401 followed by a 200 yields exactly one
refresh, two dispatches and the successful response; under persistent
401 the whole `make_request` call stays within the six-refresh /
six-dispatch bound. -/
theorem make_authenticated_request_single_401_cycle_witness :
    (make_authenticated_request env401ThenOk 0 liveExec).1.nRefresh
        = liveExec.nRefresh + 1
    ∧ (make_authenticated_request env401ThenOk 0 liveExec).1.nDispatch
        = liveExec.nDispatch + 2
    ∧ (make_authenticated_request env401ThenOk 0 liveExec).2 = .ok 200
    ∧ (make_request env401 0 liveExec).1.nRefresh ≤ liveExec.nRefresh + 6
    ∧ (make_request env401 0 liveExec).1.nDispatch ≤ liveExec.nDispatch + 6 := by
  have h := make_authenticated_request_single_401_cycle env401ThenOk env401 0
    liveExec liveExec ⟨some "tokN", none, some 200000⟩ "tokN" 200000 200
    (by with_unfolding_all decide) rfl rfl rfl rfl rfl
  exact ⟨h.1.1, h.1.2.1, h.1.2.2.1 (by decide), h.2.1, h.2.2⟩
